import Mathlib

/-!
Verification of the MACHIN3tools object/transform operators
(src/operators/align.py, src/operators/unity.py, src/ui/operators/cursor.py).

The embedding models:
* 4x4 homogeneous world transforms over exact rationals (`Mat4`), with the
  3x3 rotation block (`Mat3`) and the translation column made explicit,
  matching the mathutils matrix layout (row-major, translation in the last
  column, so `mx.translation.z` is entry (2,3));
* the alignment operators of `align.py` (`align_to_origin`,
  `align_to_active_bone`, `drop_to_floor`);
* the export-preparation/restoration walk of `unity.py`
  (`PrepareExport.prepare_for_export`, `RestoreExport.restore_exported`)
  over an explicit object hierarchy (mutually inductive trees/forests),
  with per-object modifier sequences, mesh-data references and the
  `M3` export-state fields;
* the two cursor operators of `cursor.py` at the level of the scene state
  they read and write.

Scalars are exact rationals: the source's float arithmetic (widths `* 100`,
`/ 100`, display sizes, vertex coordinates) is modelled exactly, so
"within floating-point tolerance" statements become exact equalities.
-/

/-- A 3-component vector of rationals (mathutils `Vector`). -/
structure Vec3 where
  x : ℚ
  y : ℚ
  z : ℚ
deriving DecidableEq, Repr

/-- A row of a 4x4 matrix. -/
structure Vec4 where
  x : ℚ
  y : ℚ
  z : ℚ
  w : ℚ
deriving DecidableEq, Repr

/-- A 4x4 homogeneous matrix (mathutils `Matrix`), stored as four rows.
The translation lives in the last column: `translation = (r0.w, r1.w, r2.w)`. -/
structure Mat4 where
  r0 : Vec4
  r1 : Vec4
  r2 : Vec4
  r3 : Vec4
deriving DecidableEq, Repr

/-- A 3x3 rotation-block matrix (mathutils `Matrix` of size 3,
e.g. the result of `Quaternion.to_matrix`). -/
structure Mat3 where
  a00 : ℚ
  a01 : ℚ
  a02 : ℚ
  a10 : ℚ
  a11 : ℚ
  a12 : ℚ
  a20 : ℚ
  a21 : ℚ
  a22 : ℚ
deriving DecidableEq, Repr

namespace Mat4

/-- Matrix multiplication `A @ B` of two 4x4 matrices. -/
def mul (A B : Mat4) : Mat4 where
  r0 := ⟨A.r0.x * B.r0.x + A.r0.y * B.r1.x + A.r0.z * B.r2.x + A.r0.w * B.r3.x,
         A.r0.x * B.r0.y + A.r0.y * B.r1.y + A.r0.z * B.r2.y + A.r0.w * B.r3.y,
         A.r0.x * B.r0.z + A.r0.y * B.r1.z + A.r0.z * B.r2.z + A.r0.w * B.r3.z,
         A.r0.x * B.r0.w + A.r0.y * B.r1.w + A.r0.z * B.r2.w + A.r0.w * B.r3.w⟩
  r1 := ⟨A.r1.x * B.r0.x + A.r1.y * B.r1.x + A.r1.z * B.r2.x + A.r1.w * B.r3.x,
         A.r1.x * B.r0.y + A.r1.y * B.r1.y + A.r1.z * B.r2.y + A.r1.w * B.r3.y,
         A.r1.x * B.r0.z + A.r1.y * B.r1.z + A.r1.z * B.r2.z + A.r1.w * B.r3.z,
         A.r1.x * B.r0.w + A.r1.y * B.r1.w + A.r1.z * B.r2.w + A.r1.w * B.r3.w⟩
  r2 := ⟨A.r2.x * B.r0.x + A.r2.y * B.r1.x + A.r2.z * B.r2.x + A.r2.w * B.r3.x,
         A.r2.x * B.r0.y + A.r2.y * B.r1.y + A.r2.z * B.r2.y + A.r2.w * B.r3.y,
         A.r2.x * B.r0.z + A.r2.y * B.r1.z + A.r2.z * B.r2.z + A.r2.w * B.r3.z,
         A.r2.x * B.r0.w + A.r2.y * B.r1.w + A.r2.z * B.r2.w + A.r2.w * B.r3.w⟩
  r3 := ⟨A.r3.x * B.r0.x + A.r3.y * B.r1.x + A.r3.z * B.r2.x + A.r3.w * B.r3.x,
         A.r3.x * B.r0.y + A.r3.y * B.r1.y + A.r3.z * B.r2.y + A.r3.w * B.r3.y,
         A.r3.x * B.r0.z + A.r3.y * B.r1.z + A.r3.z * B.r2.z + A.r3.w * B.r3.z,
         A.r3.x * B.r0.w + A.r3.y * B.r1.w + A.r3.z * B.r2.w + A.r3.w * B.r3.w⟩

instance : Mul Mat4 := ⟨Mat4.mul⟩

/-- The identity matrix (`mathutils.Matrix()`). -/
def identity : Mat4 where
  r0 := ⟨1, 0, 0, 0⟩
  r1 := ⟨0, 1, 0, 0⟩
  r2 := ⟨0, 0, 1, 0⟩
  r3 := ⟨0, 0, 0, 1⟩

instance : One Mat4 := ⟨Mat4.identity⟩

/-- The translation component: the first three entries of the last column
(`Matrix.to_translation` / `Matrix.translation`). -/
def translation (A : Mat4) : Vec3 := ⟨A.r0.w, A.r1.w, A.r2.w⟩

/-- Application of a 4x4 matrix to a 3D point (`mx @ v` in mathutils
treats `v` as `(x, y, z, 1)` and returns the first three components). -/
def mulPoint (A : Mat4) (v : Vec3) : Vec3 :=
  ⟨A.r0.x * v.x + A.r0.y * v.y + A.r0.z * v.z + A.r0.w,
   A.r1.x * v.x + A.r1.y * v.y + A.r1.z * v.z + A.r1.w,
   A.r2.x * v.x + A.r2.y * v.y + A.r2.z * v.z + A.r2.w⟩

end Mat4

/-- `Matrix.Rotation(angle, 4, 'X')` for an angle with cosine `c` and
sine `s`. -/
def rotX4 (c s : ℚ) : Mat4 where
  r0 := ⟨1, 0, 0, 0⟩
  r1 := ⟨0, c, -s, 0⟩
  r2 := ⟨0, s, c, 0⟩
  r3 := ⟨0, 0, 0, 1⟩

/-- `Matrix.Rotation(angle, 4, 'Y')` for an angle with cosine `c` and
sine `s`. -/
def rotY4 (c s : ℚ) : Mat4 where
  r0 := ⟨c, 0, s, 0⟩
  r1 := ⟨0, 1, 0, 0⟩
  r2 := ⟨-s, 0, c, 0⟩
  r3 := ⟨0, 0, 0, 1⟩

/-- `Matrix.Rotation(angle, 4, 'Z')` for an angle with cosine `c` and
sine `s`. -/
def rotZ4 (c s : ℚ) : Mat4 where
  r0 := ⟨c, -s, 0, 0⟩
  r1 := ⟨s, c, 0, 0⟩
  r2 := ⟨0, 0, 1, 0⟩
  r3 := ⟨0, 0, 0, 1⟩

namespace Mat3

/-- 3x3 matrix multiplication, used for composing rotations. -/
def mul (A B : Mat3) : Mat3 where
  a00 := A.a00 * B.a00 + A.a01 * B.a10 + A.a02 * B.a20
  a01 := A.a00 * B.a01 + A.a01 * B.a11 + A.a02 * B.a21
  a02 := A.a00 * B.a02 + A.a01 * B.a12 + A.a02 * B.a22
  a10 := A.a10 * B.a00 + A.a11 * B.a10 + A.a12 * B.a20
  a11 := A.a10 * B.a01 + A.a11 * B.a11 + A.a12 * B.a21
  a12 := A.a10 * B.a02 + A.a11 * B.a12 + A.a12 * B.a22
  a20 := A.a20 * B.a00 + A.a21 * B.a10 + A.a22 * B.a20
  a21 := A.a20 * B.a01 + A.a21 * B.a11 + A.a22 * B.a21
  a22 := A.a20 * B.a02 + A.a21 * B.a12 + A.a22 * B.a22

instance : Mul Mat3 := ⟨Mat3.mul⟩

/-- The 3x3 identity rotation. -/
def identity : Mat3 := ⟨1, 0, 0, 0, 1, 0, 0, 0, 1⟩

instance : One Mat3 := ⟨Mat3.identity⟩

/-- `rot.to_4x4()`: embed a 3x3 rotation block into a homogeneous 4x4
matrix with zero translation. -/
def to4x4 (R : Mat3) : Mat4 where
  r0 := ⟨R.a00, R.a01, R.a02, 0⟩
  r1 := ⟨R.a10, R.a11, R.a12, 0⟩
  r2 := ⟨R.a20, R.a21, R.a22, 0⟩
  r3 := ⟨0, 0, 0, 1⟩

end Mat3

/-- The 3x3 rotation by +90 degrees about X (cosine 0, sine 1), the
linear block of `Matrix.Rotation(radians(90), 4, 'X')`. -/
def rx90 : Mat3 := ⟨1, 0, 0, 0, 0, -1, 0, 1, 0⟩

/-- Modelled from the spec: `utils.math.get_loc_matrix` is not under
`src/`; the spec describes it as construction of a pure translation
matrix from a 3-vector. -/
def get_loc_matrix (v : Vec3) : Mat4 where
  r0 := ⟨1, 0, 0, v.x⟩
  r1 := ⟨0, 1, 0, v.y⟩
  r2 := ⟨0, 0, 1, v.z⟩
  r3 := ⟨0, 0, 0, 1⟩

/-- Modelled from the spec: `utils.math.get_sca_matrix` is not under
`src/`; the spec describes it as construction of a pure scale matrix with
independent per-axis factors. -/
def get_sca_matrix (v : Vec3) : Mat4 where
  r0 := ⟨v.x, 0, 0, 0⟩
  r1 := ⟨0, v.y, 0, 0⟩
  r2 := ⟨0, 0, v.z, 0⟩
  r3 := ⟨0, 0, 0, 1⟩

/-- Modelled from the spec: `utils.math.get_rot_matrix` is not under
`src/`; the spec describes it as construction of a pure rotation matrix
from a rotation component.  The rotation component is carried as its
3x3 matrix, so this is the homogeneous embedding. -/
def get_rot_matrix (R : Mat3) : Mat4 := Mat3.to4x4 R

/-- An object's world transform in decomposed form: translation, rotation
(as its 3x3 matrix) and per-axis scale.  The spec's data model states that
a world Transform decomposes uniquely into these three components (no
shear is modelled), so the decomposed triple is a faithful representation;
`Transform.toMat4` recovers the 4x4 matrix and `mathutils.decompose`
corresponds to reading the three fields. -/
structure Transform where
  loc : Vec3
  rot : Mat3
  sca : Vec3
deriving DecidableEq, Repr

/-- Recomposition `get_loc_matrix(loc) @ get_rot_matrix(rot) @ get_sca_matrix(sca)`. -/
def Transform.toMat4 (t : Transform) : Mat4 :=
  get_loc_matrix t.loc * get_rot_matrix t.rot * get_sca_matrix t.sca

/-- The identity transform (decomposed form of `mathutils.Matrix()`). -/
def Transform.identity : Transform := ⟨⟨0, 0, 0⟩, Mat3.identity, ⟨1, 1, 1⟩⟩

/-- Componentwise division of a scale vector by 100 (`sca / 100`). -/
def scaDiv100 (v : Vec3) : Vec3 := ⟨v.x / 100, v.y / 100, v.z / 100⟩

/-! ## Alignment engine (`src/operators/align.py`) -/

/-- `Align.align_to_origin`, body of the per-object loop (align.py lines
151-189).  The object's world matrix is given in decomposed form
`(oloc, orot, osca)` (the source calls `omx.decompose()`); `location` and
`loc_x/y/z` are the operator properties.  Per the source, the translation
row picks 0 on enabled axes when `location` is set, the rotation is the
object's own rotation (`orot.to_matrix().to_4x4()`) and the scale is the
object's own scale; the result is `loc @ rot @ sca`. -/
def align_to_origin_obj (location loc_x loc_y loc_z : Bool)
    (oloc : Vec3) (orot : Mat3) (osca : Vec3) : Mat4 :=
  let loc :=
    if location then
      get_loc_matrix ⟨if loc_x then 0 else oloc.x,
                      if loc_y then 0 else oloc.y,
                      if loc_z then 0 else oloc.z⟩
    else
      get_loc_matrix oloc
  let rot := Mat3.to4x4 orot
  let sca := get_sca_matrix osca
  loc * rot * sca

/-- Result of `Align.align_to_active_bone` for one object: whether the
object was parented to the bone, and its new world matrix. -/
structure BoneAlignResult where
  parented : Bool
  matrix_world : Mat4
deriving DecidableEq, Repr

/-- `Align.align_to_active_bone`, body of the per-object loop (align.py
lines 315-327).  `c` and `s` are the cosine and sine of
`radians(roll_amount)`; the source selects the angle
`roll_amount if roll else 0` before building the rotation matrix, so the
used cosine/sine pair is `(c, s)` when `roll` is set and `(1, 0)`
(cosine and sine of zero) otherwise.  `armature_mx` is
`armature.matrix_world` and `bone_mx` is `bone.matrix`, so
`armature_mx * bone_mx` is the joint's world transform. -/
def align_to_active_bone_obj (armature_mx bone_mx : Mat4)
    (parent_to_bone align_z_to_y roll : Bool) (c s : ℚ) : BoneAlignResult :=
  let rc := if roll then c else 1
  let rs := if roll then s else 0
  { parented := parent_to_bone
    matrix_world :=
      if align_z_to_y then
        armature_mx * bone_mx * rotX4 0 (-1) * rotZ4 rc rs
      else
        armature_mx * bone_mx * rotY4 rc rs }

/-- Object kind tag as used by the operators. -/
inductive ObjType where
  | MESH
  | EMPTY
  | OTHER
deriving DecidableEq, Repr

/-- Python's `min` over a sequence of rationals: `none` on the empty
sequence (where CPython raises `ValueError`), otherwise the least
element. -/
def listMin : List ℚ → Option ℚ
  | [] => none
  | x :: xs => some (xs.foldl min x)

/-- The part of an object's state read and written by
`Align.drop_to_floor`: type tag, world matrix, local mesh vertex
coordinates (`obj.data.vertices[..].co`, meaningful for MESH) and the
object's local location (`obj.location`, read for EMPTY). -/
structure FloorObj where
  otype : ObjType
  matrix_world : Mat4
  verts : List Vec3
  location : Vec3
deriving DecidableEq, Repr

/-- `mx.translation.z -= d` on a 4x4 matrix: only entry (2,3) changes. -/
def subTransZ (mx : Mat4) (d : ℚ) : Mat4 :=
  { mx with r2 := { mx.r2 with w := mx.r2.w - d } }

/-- `Align.drop_to_floor`, body of the per-object loop (align.py lines
329-339).  For MESH objects the minimum world-space Z over all vertices
is subtracted from the world translation Z; `none` models the
`ValueError` Python's `min` raises on an empty vertex sequence.  For
EMPTY objects the local location Z is subtracted.  Other types are left
unchanged (no branch applies). -/
def drop_to_floor_obj (o : FloorObj) : Option FloorObj :=
  match o.otype with
  | ObjType.MESH =>
    match listMin (o.verts.map fun v => (Mat4.mulPoint o.matrix_world v).z) with
    | some minz => some { o with matrix_world := subTransZ o.matrix_world minz }
    | none => none
  | ObjType.EMPTY => some { o with matrix_world := subTransZ o.matrix_world o.location.z }
  | ObjType.OTHER => some o

/-! ## Cursor operators (`src/ui/operators/cursor.py`) -/

/-- Operator completion status. -/
inductive OpStatus where
  | FINISHED
  | CANCELLED
deriving DecidableEq, Repr

/-- The scene state read and written by the cursor operators: the cursor
overlay visibility flag, the 3D cursor location and rotation (the cursor
matrix `context.scene.cursor.matrix` is built from these, so
`cmx.to_translation()` is `cursor_loc` and `cmx.to_quaternion()` is
`cursor_rot`), the active object and selected objects, the transform
pivot/orientation setting (as opaque codes), the module-global saved
`(pivot, orientation)` pair, and whether an object-axes drawing handler
is installed. -/
structure CursorScene where
  show_cursor : Bool
  cursor_loc : Vec3
  cursor_rot : Mat3
  active : Option Nat
  selected : List Nat
  pivot : Nat
  orientation : Nat
  saved_preset : Option (Nat × Nat)
  axes_handler : Bool
deriving DecidableEq, Repr

/-- Add-on preferences read by the cursor operators. -/
structure CursorPrefs where
  cursor_set_transform_preset : Bool
  cursor_toggle_axes_drawing : Bool
  activate_transform_pie : Bool
  activate_shading_pie : Bool
deriving DecidableEq, Repr

/-- `CursorToOrigin.invoke` (cursor.py lines 21-48).  The ALT+CTRL check
is the first statement; on that error a popup is reported (third result
component) and CANCELLED is returned with no prior mutation.  Otherwise
the cursor overlay is enabled, the cursor is reset
(`location = cmx.to_translation() if ctrl else zero`,
`rotation = cmx.to_quaternion() if alt else identity`), the saved
transform preset is restored and cleared when the preference is set, and
the axes drawing handler is removed when present. -/
def cursorToOrigin_invoke (prefs : CursorPrefs) (s : CursorScene)
    (alt ctrl : Bool) : CursorScene × OpStatus × Bool :=
  if alt && ctrl then
    (s, OpStatus.CANCELLED, true)
  else
    let s1 := if s.show_cursor then s else { s with show_cursor := true }
    let s2 := { s1 with
      cursor_loc := if ctrl then s1.cursor_loc else ⟨0, 0, 0⟩,
      cursor_rot := if alt then s1.cursor_rot else Mat3.identity }
    let s3 :=
      if prefs.cursor_set_transform_preset then
        match s2.saved_preset with
        | some pr => { s2 with pivot := pr.1, orientation := pr.2, saved_preset := none }
        | none => s2
      else s2
    let s4 :=
      if prefs.cursor_toggle_axes_drawing && s3.axes_handler then
        { s3 with axes_handler := false }
      else s3
    (s4, OpStatus.FINISHED, false)

/-- The list `sel = [obj for obj in context.selected_objects if obj !=
active]` built by `CursorToSelected.invoke` (cursor.py line 81). -/
def selOthers (s : CursorScene) : List Nat :=
  match s.active with
  | some a => s.selected.filter (fun o => o ≠ a)
  | none => s.selected

/-- `CursorToSelected.invoke` (cursor.py lines 71-123), modelled up to
the ALT+CTRL check; the post-check branches (cursor-to-active-object,
edit-mesh element alignment via `bmesh`, and the
`view3d.snap_cursor_to_selected` fallback, together with the preset and
axes-drawing side effects) are external to this claim set and are
abstracted as the continuation `k`.  Before the check the source enables
the cursor overlay and, when there are selected objects but no active
object, assigns a new active object and then calls `sel.remove(active)`
with `active` still `None`, which raises `ValueError` (modelled as
`none`). -/
def cursorToSelected_invoke (k : CursorScene → CursorScene × OpStatus)
    (s : CursorScene) (alt ctrl : Bool) :
    Option (CursorScene × OpStatus × Bool) :=
  let s1 := if s.show_cursor then s else { s with show_cursor := true }
  if selOthers s1 ≠ [] ∧ s1.active = none then
    none
  else if alt && ctrl then
    some (s1, OpStatus.CANCELLED, true)
  else
    let r := k s1
    some (r.1, r.2, false)

/-! ## Export transform normalizer (`src/operators/unity.py`) -/

/-- Modifier type tags relevant to the export normalizer. -/
inductive ModKind where
  | MIRROR
  | BEVEL
  | TRIANGULATE
  | OTHERMOD
deriving DecidableEq, Repr

/-- A three-element boolean axis-flag set, such as `mod.use_axis`. -/
structure Axis3 where
  x : Bool
  y : Bool
  z : Bool
deriving DecidableEq, Repr

/-- `flags[1:3] = flags[2], flags[1]`: swap the Y and Z entries. -/
def Axis3.swapYZ (a : Axis3) : Axis3 := ⟨a.x, a.z, a.y⟩

/-- A modifier record.  Each subtype's parameters live in dedicated
fields, unused by the other kinds: MIRROR uses the three axis-flag sets,
BEVEL uses `width`, TRIANGULATE uses `keep_custom_normals` and
`show_expanded`.  `show_viewport` is the viewport visibility toggle that
`prepare_for_export`/`restore_exported` filter on. -/
structure Modifier where
  kind : ModKind
  show_viewport : Bool
  use_axis : Axis3
  use_bisect_axis : Axis3
  use_bisect_flip_axis : Axis3
  width : ℚ
  keep_custom_normals : Bool
  show_expanded : Bool
deriving DecidableEq, Repr

/-- The modifier created by `obj.modifiers.new(name="Triangulate",
type="TRIANGULATE")` with `keep_custom_normals = True` and
`show_expanded = False` (unity.py lines 102-104); a freshly created
modifier is viewport-visible. -/
def triangulateMod : Modifier :=
  { kind := ModKind.TRIANGULATE
    show_viewport := true
    use_axis := ⟨false, false, false⟩
    use_bisect_axis := ⟨false, false, false⟩
    use_bisect_flip_axis := ⟨false, false, false⟩
    width := 0
    keep_custom_normals := true
    show_expanded := false }

/-- The MIRROR-modifier pass of `prepare_for_export` (unity.py lines
75-83): every viewport-visible MIRROR modifier has the Y and Z entries of
`use_axis`, `use_bisect_axis` and `use_bisect_flip_axis` swapped; all
other modifiers are untouched. -/
def prepMirrors (mods : List Modifier) : List Modifier :=
  mods.map fun m =>
    if m.kind = ModKind.MIRROR ∧ m.show_viewport then
      { m with use_axis := m.use_axis.swapYZ,
               use_bisect_axis := m.use_bisect_axis.swapYZ,
               use_bisect_flip_axis := m.use_bisect_flip_axis.swapYZ }
    else m

/-- The BEVEL-modifier pass of `prepare_for_export` (unity.py lines
88-94): every viewport-visible BEVEL modifier has its width multiplied
by 100. -/
def prepBevels (mods : List Modifier) : List Modifier :=
  mods.map fun m =>
    if m.kind = ModKind.BEVEL ∧ m.show_viewport then
      { m with width := m.width * 100 }
    else m

/-- The MIRROR-modifier pass of `restore_exported` (unity.py lines
182-190): the same Y/Z swap as in preparation (the swap is its own
inverse). -/
def restMirrors (mods : List Modifier) : List Modifier :=
  mods.map fun m =>
    if m.kind = ModKind.MIRROR ∧ m.show_viewport then
      { m with use_axis := m.use_axis.swapYZ,
               use_bisect_axis := m.use_bisect_axis.swapYZ,
               use_bisect_flip_axis := m.use_bisect_flip_axis.swapYZ }
    else m

/-- The BEVEL-modifier pass of `restore_exported` (unity.py lines
195-201): every viewport-visible BEVEL modifier has its width divided
by 100. -/
def restBevels (mods : List Modifier) : List Modifier :=
  mods.map fun m =>
    if m.kind = ModKind.BEVEL ∧ m.show_viewport then
      { m with width := m.width / 100 }
    else m

/-- The TRIANGULATE step of `prepare_for_export` (unity.py lines
99-104): when triangulation is requested and the object is a MESH, a new
triangulation modifier is appended to the modifier sequence. -/
def addTriangulate (triangulate : Bool) (otype : ObjType)
    (mods : List Modifier) : List Modifier :=
  if triangulate ∧ otype = ObjType.MESH then mods ++ [triangulateMod] else mods

/-- The TRIANGULATE step of `restore_exported` (unity.py lines
206-211): when detriangulation is requested and the object has a last
modifier whose type is TRIANGULATE, that last modifier is removed. -/
def removeTriangulate (detriangulate : Bool) (mods : List Modifier) :
    List Modifier :=
  if detriangulate then
    match mods.getLast? with
    | some lastmod =>
      if lastmod.kind = ModKind.TRIANGULATE then mods.dropLast else mods
    | none => mods
  else mods

/-- The per-object transient export state `obj.M3`: the "prepared for
export" flag, the saved pre-export world transform (the source stores
`flatten_matrix(mx)`, a verbatim serialization, and assigning it back to
`matrix_world` deserializes it, so the model stores the transform
itself), and the saved reference to the original mesh data block. -/
structure M3State where
  unity_exported : Bool
  pre_unity_export_mx : Transform
  pre_unity_export_mesh : Option Nat
deriving DecidableEq, Repr

/-- An object as seen by the export normalizer: type tag, world transform
(in decomposed form, see `Transform`), modifier sequence, empty display
size, the mesh data-block reference `obj.data` (an identity; mesh
contents are not modelled, only which block the object points at), and
the transient `M3` export state. -/
structure UObj where
  otype : ObjType
  matrix_world : Transform
  modifiers : List Modifier
  empty_display_size : ℚ
  data : Nat
  m3 : M3State
deriving DecidableEq, Repr

mutual
/-- An object with its derived children (`obj.children`). -/
inductive OTree where
  | node (id : Nat) (obj : UObj) (children : OForest)
deriving DecidableEq
/-- A list of sibling subtrees. -/
inductive OForest where
  | nil
  | cons (t : OTree) (f : OForest)
deriving DecidableEq
end

/-- The identity (object handle) at the root of a subtree. -/
def rootId : OTree → Nat
  | .node id _ _ => id

/-- The body of `prepare_for_export` on one visited object (unity.py
lines 59-124, everything under the `if obj in sel` guard except the
recursion into children): set the `unity_exported` flag, save the
snapshot matrix `matrices[obj]` verbatim, rebuild the world matrix as
`loc @ rot @ Rotation(90, X) @ sca/100` (in decomposed form the rotation
becomes `rot * rx90` and the scale `sca / 100`), run the MIRROR, BEVEL
and TRIANGULATE modifier passes, and adjust object data: an EMPTY's
display size is multiplied by 100; a MESH saves its original data block,
points `obj.data` at a fresh copy (a new block identity drawn from the
`fresh` counter) whose vertices are compensated in place (mesh contents
are not modelled).  Returns the updated object and counter. -/
def prepObj (mxsnap : Transform) (triangulate : Bool) (o : UObj)
    (fresh : Nat) : UObj × Nat :=
  let o1 := { o with
    m3 := { o.m3 with unity_exported := true, pre_unity_export_mx := mxsnap },
    matrix_world := ⟨mxsnap.loc, mxsnap.rot * rx90, scaDiv100 mxsnap.sca⟩ }
  let o2 := { o1 with
    modifiers := addTriangulate triangulate o1.otype
      (prepBevels (prepMirrors o1.modifiers)) }
  match o2.otype with
  | ObjType.EMPTY =>
    ({ o2 with empty_display_size := o2.empty_display_size * 100 }, fresh)
  | ObjType.MESH =>
    ({ o2 with
        m3 := { o2.m3 with pre_unity_export_mesh := some o2.data },
        data := fresh }, fresh + 1)
  | ObjType.OTHER => (o2, fresh)

/-- The body of `restore_exported` on one visited object (unity.py lines
173-225, everything under the `if obj in exported` guard except the
recursion): write the saved matrix back to `matrix_world`, reset the
saved matrix to the flattened identity and clear the `unity_exported`
flag, run the MIRROR, BEVEL and detriangulation passes, and restore
object data: an EMPTY's display size is divided by 100; a MESH with a
saved original data block appends its current (copied) block to the
removal list, points `obj.data` back at the saved block and clears the
saved reference.  Returns the updated object and the blocks collected
for batch removal. -/
def restObj (detriangulate : Bool) (o : UObj) : UObj × List Nat :=
  let o1 := { o with
    matrix_world := o.m3.pre_unity_export_mx,
    m3 := { o.m3 with
      pre_unity_export_mx := Transform.identity,
      unity_exported := false } }
  let o2 := { o1 with
    modifiers := removeTriangulate detriangulate
      (restBevels (restMirrors o1.modifiers)) }
  match o2.otype with
  | ObjType.EMPTY =>
    ({ o2 with empty_display_size := o2.empty_display_size / 100 }, [])
  | ObjType.MESH =>
    match o2.m3.pre_unity_export_mesh with
    | some orig =>
      ({ o2 with
          data := orig,
          m3 := { o2.m3 with pre_unity_export_mesh := none } }, [o2.data])
    | none => (o2, [])
  | ObjType.OTHER => (o2, [])

mutual
/-- `PrepareExport.prepare_for_export` (unity.py lines 49-134): the body
runs only when the object is in `sel`; it then applies `prepObj` with
the snapshot matrix `matrices[obj]` and recurses into the children,
preparing exactly those children that are in `sel` (line 133). -/
def prepTree (sel : Nat → Bool) (mxs : Nat → Transform)
    (triangulate : Bool) : OTree → Nat → OTree × Nat
  | .node id o ch, fresh =>
    if sel id then
      let p := prepObj (mxs id) triangulate o fresh
      let q := prepForest sel mxs triangulate ch p.2
      (.node id p.1 q.1, q.2)
    else (.node id o ch, fresh)

/-- The `for child in obj.children: if child in sel: ...` loop of
`prepare_for_export`, which is also the loop over selected roots in
`PrepareExport.invoke` (unity.py lines 40-41): each subtree whose root
is in `sel` is prepared, the others are left untouched. -/
def prepForest (sel : Nat → Bool) (mxs : Nat → Transform)
    (triangulate : Bool) : OForest → Nat → OForest × Nat
  | .nil, fresh => (.nil, fresh)
  | .cons t f, fresh =>
    let p := if sel (rootId t) then prepTree sel mxs triangulate t fresh
             else (t, fresh)
    let q := prepForest sel mxs triangulate f p.2
    (.cons p.1 q.1, q.2)
end

mutual
/-- `RestoreExport.restore_exported` (unity.py lines 167-235): the body
runs only when the object is in the `exported` collection; it then
applies `restObj` and recurses into the children that are in
`exported` (line 234), concatenating the mesh blocks collected for
batch removal. -/
def restTree (exported : Nat → Bool) (detriangulate : Bool) :
    OTree → OTree × List Nat
  | .node id o ch =>
    if exported id then
      let p := restObj detriangulate o
      let q := restForest exported detriangulate ch
      (.node id p.1 q.1, p.2 ++ q.2)
    else (.node id o ch, [])

/-- The `for child in obj.children: if child in exported: ...` loop of
`restore_exported`, which is also the loop over exported roots in
`RestoreExport.execute` (unity.py lines 159-160). -/
def restForest (exported : Nat → Bool) (detriangulate : Bool) :
    OForest → OForest × List Nat
  | .nil => (.nil, [])
  | .cons t f =>
    let p := if exported (rootId t) then restTree exported detriangulate t
             else (t, [])
    let q := restForest exported detriangulate f
    (.cons p.1 q.1, p.2 ++ q.2)
end

mutual
/-- Look up an object by handle in a subtree. -/
def findT : OTree → Nat → Option UObj
  | .node id o ch, i => if id = i then some o else findF ch i

/-- Look up an object by handle in a forest. -/
def findF : OForest → Nat → Option UObj
  | .nil, _ => none
  | .cons t f, i => (findT t i).orElse fun _ => findF f i
end

mutual
/-- The `(handle, object)` pairs of a subtree, in traversal (parent
before children) order. -/
def nodesT : OTree → List (Nat × UObj)
  | .node id o ch => (id, o) :: nodesF ch

/-- The `(handle, object)` pairs of a forest. -/
def nodesF : OForest → List (Nat × UObj)
  | .nil => []
  | .cons t f => nodesT t ++ nodesF f
end

/-- The dictionary `matrices = {obj: obj.matrix_world.copy() for obj in
sel}` built by `PrepareExport.invoke` (unity.py line 34) before any
mutation, as a total function on handles (it is only consulted for
objects in `sel`; the default value is never read on well-formed
scenes). -/
def mxFun (F : OForest) : Nat → Transform :=
  fun i => ((findF F i).map (fun o => o.matrix_world)).getD Transform.identity

/-- The collection `exported = [obj for obj in context.visible_objects if
obj.M3.unity_exported]` built by `RestoreExport.execute` (unity.py line
152) before the walk, as a predicate on handles (the scene is modelled
with every object visible). -/
def exportedFun (F : OForest) : Nat → Bool :=
  fun i => ((findF F i).map (fun o => o.m3.unity_exported)).getD false

/-- `PrepareExport.invoke` (unity.py lines 20-47) on the scene forest:
the world-matrix snapshot is taken from the pre-invoke state, then every
selected root subtree is prepared (non-selected roots have no selected
ancestors either, so a top-level `sel` filter and the recursive filter
coincide with the source's `roots` loop).  `fresh` seeds the supply of
new mesh data-block identities. -/
def prepareInvoke (sel : Nat → Bool) (triangulate : Bool) (F : OForest)
    (fresh : Nat) : OForest :=
  (prepForest sel (mxFun F) triangulate F fresh).1

/-- `RestoreExport.execute` (unity.py lines 147-165) on the scene
forest: the `exported` collection is computed from the pre-execute
state, every exported root subtree is restored, and the collected copied
mesh blocks are returned alongside (they are batch-removed at the end,
line 163). -/
def restoreInvoke (detriangulate : Bool) (F : OForest) :
    OForest × List Nat :=
  restForest (exportedFun F) detriangulate F

/-- The persistent, user-visible part of an object's export state: the
claims about prepare/restore round-trips compare these fields (the
transient `M3` annotation is excluded by design: preparation creates it
and restoration consumes it). -/
structure CoreObj where
  otype : ObjType
  matrix_world : Transform
  modifiers : List Modifier
  empty_display_size : ℚ
  data : Nat
deriving DecidableEq, Repr

/-- Projection of an object to its persistent part. -/
def UObj.core (o : UObj) : CoreObj :=
  ⟨o.otype, o.matrix_world, o.modifiers, o.empty_display_size, o.data⟩

mutual
/-- The `(handle, persistent state)` pairs of a subtree, in traversal
order. -/
def coreNodesT : OTree → List (Nat × CoreObj)
  | .node id o ch => (id, o.core) :: coreNodesF ch

/-- The `(handle, persistent state)` pairs of a forest. -/
def coreNodesF : OForest → List (Nat × CoreObj)
  | .nil => []
  | .cons t f => coreNodesT t ++ coreNodesF f
end

/-! ## Helper lemmas -/

theorem Mat4.mul_unfold (A B : Mat4) : A * B = Mat4.mul A B := rfl

theorem Mat4.one_unfold : (1 : Mat4) = Mat4.identity := rfl

theorem Mat3.mul3_unfold (A B : Mat3) : A * B = Mat3.mul A B := rfl

theorem Mat3.one3_unfold : (1 : Mat3) = Mat3.identity := rfl

/-! ## C2: alignment to the origin -/

/-- Claim C2 (corrected): the counterexample.  Aligning an object whose
decomposed world matrix has translation `(1, 2, 3)`, a 90-degree Z
rotation and unit scale to ORIGIN with the location component and all
three location axes enabled does not produce the transform the claim
demands.  Under the claim the result would have zero translation,
identity rotation and the original (unit) scale, i.e. it would equal
`get_loc_matrix 0 @ identity-rotation @ get_sca_matrix 1`; the code
passes the object's rotation through instead, so the result differs. -/
theorem C2_align_to_origin_counterexample :
    align_to_origin_obj true true true true ⟨1, 2, 3⟩
        ⟨0, -1, 0, 1, 0, 0, 0, 0, 1⟩ ⟨1, 1, 1⟩
      ≠ get_loc_matrix ⟨0, 0, 0⟩ * Mat3.to4x4 Mat3.identity
          * get_sca_matrix ⟨1, 1, 1⟩ := by
  norm_num [align_to_origin_obj, get_loc_matrix, get_sca_matrix,
    Mat3.to4x4, Mat3.identity, Mat4.mul_unfold, Mat4.mul]

/-- Claim C2 (amended): for every object and every starting world
Transform, aligning to ORIGIN with the location component enabled and
all three location axes enabled sets the object's world translation to
the zero vector while its rotation and scale are both preserved (the
rotation is passed through unchanged, not reset to the identity): the
result is exactly the recomposition of zero translation, the original
rotation and the original scale, and its translation component is the
zero vector. -/
theorem C2_align_to_origin_amended (oloc : Vec3) (orot : Mat3) (osca : Vec3) :
    align_to_origin_obj true true true true oloc orot osca
      = get_loc_matrix ⟨0, 0, 0⟩ * Mat3.to4x4 orot * get_sca_matrix osca
    ∧ (align_to_origin_obj true true true true oloc orot osca).translation
      = ⟨0, 0, 0⟩ := by
  constructor
  · rfl
  · simp [align_to_origin_obj, get_loc_matrix, get_sca_matrix,
      Mat3.to4x4, Mat4.mul_unfold, Mat4.mul, Mat4.translation]

/-! ## C5: alignment to the active bone -/

/-- Claim C5 (corrected): the counterexample.  With Z-to-Y alignment
disabled, roll enabled, a roll angle of 90 degrees (cosine 0, sine 1)
and both the armature world matrix and the bone matrix the identity, the
claim demands the world matrix `joint_world @ rotZ(90)` (roll about Z,
no axis correction); the code instead applies the roll about the Y axis,
and the two matrices differ. -/
theorem C5_align_to_active_bone_counterexample :
    (align_to_active_bone_obj Mat4.identity Mat4.identity
        true false true 0 1).matrix_world
      ≠ Mat4.identity * Mat4.identity * rotZ4 0 1 := by
  norm_num [align_to_active_bone_obj, rotY4, rotZ4, Mat4.mul_unfold,
    Mat4.mul, Mat4.identity]

/-- Claim C5 (amended): in ACTIVE mode with a selected skeletal joint,
each target object's world Transform is set to the joint's world
transform (`armature world matrix @ bone matrix`) composed, when Z-to-Y
alignment is enabled, with the fixed axis correction (a -90 degree
rotation about X) and then a roll rotation about the Z axis; when Z-to-Y
alignment is disabled no axis correction is applied and the roll
rotation is about the Y axis instead.  In both cases the roll angle is
the configured angle (cosine `c`, sine `s`) when roll is enabled and
zero (cosine 1, sine 0 — the identity rotation) when roll is disabled,
and the object is parented to the joint exactly when the parent option
is set. -/
theorem C5_align_to_active_bone_amended (amx bmx : Mat4)
    (p roll : Bool) (c s : ℚ) :
    (align_to_active_bone_obj amx bmx p true roll c s).matrix_world
      = amx * bmx * rotX4 0 (-1)
          * rotZ4 (if roll then c else 1) (if roll then s else 0)
    ∧ (align_to_active_bone_obj amx bmx p false roll c s).matrix_world
      = amx * bmx * rotY4 (if roll then c else 1) (if roll then s else 0)
    ∧ rotZ4 1 0 = Mat4.identity
    ∧ rotY4 1 0 = Mat4.identity
    ∧ (align_to_active_bone_obj amx bmx p true roll c s).parented = p := by
  refine ⟨rfl, rfl, ?_, ?_, rfl⟩
  · norm_num [rotZ4, Mat4.identity]
  · norm_num [rotY4, Mat4.identity]

/-! ## C7: MIRROR and BEVEL modifier adjustment -/

/-- Claim C7 (corrected): the counterexample.  A MESH object carrying a
single MIRROR modifier whose viewport display is disabled
(`show_viewport = false`) is visited by export preparation, yet its
`use_axis` flag set is left unchanged (`(true, true, false)`), whereas
the claim demands that every MIRROR modifier have its Y and Z entries
swapped, which would give `(true, false, true)`. -/
theorem C7_mirror_filter_counterexample :
    (((prepObj Transform.identity false
        { otype := ObjType.MESH
          matrix_world := Transform.identity
          modifiers := [{ kind := ModKind.MIRROR
                          show_viewport := false
                          use_axis := ⟨true, true, false⟩
                          use_bisect_axis := ⟨false, false, false⟩
                          use_bisect_flip_axis := ⟨false, false, false⟩
                          width := 0
                          keep_custom_normals := false
                          show_expanded := true }]
          empty_display_size := 1
          data := 0
          m3 := ⟨false, Transform.identity, none⟩ } 0).1).modifiers.map
      fun m => m.use_axis) = [⟨true, true, false⟩]
    ∧ Axis3.swapYZ ⟨true, true, false⟩ ≠ (⟨true, true, false⟩ : Axis3) := by
  constructor
  · simp +decide [prepObj, prepMirrors, prepBevels, addTriangulate,
      Axis3.swapYZ]
  · decide

/-- Claim C7 (amended): when export preparation visits an object, its
modifier passes act exactly on the viewport-enabled modifiers: every
MIRROR modifier with viewport display enabled has the Y and Z entries of
its three axis-flag sets (use-axis, bisect-axis, bisect-flip-axis)
swapped, every BEVEL modifier with viewport display enabled has its
width multiplied by 100, and every other modifier — including MIRROR
and BEVEL modifiers whose viewport display is disabled — is left
unchanged. -/
theorem C7_mirror_bevel_amended (mods : List Modifier) :
    prepBevels (prepMirrors mods) = mods.map fun m =>
      if m.kind = ModKind.MIRROR ∧ m.show_viewport then
        { m with use_axis := m.use_axis.swapYZ,
                 use_bisect_axis := m.use_bisect_axis.swapYZ,
                 use_bisect_flip_axis := m.use_bisect_flip_axis.swapYZ }
      else if m.kind = ModKind.BEVEL ∧ m.show_viewport then
        { m with width := m.width * 100 }
      else m := by
  rw [prepMirrors, prepBevels, List.map_map]
  apply List.map_congr_left
  intro m _
  by_cases h1 : m.kind = ModKind.MIRROR ∧ m.show_viewport
  · simp [Function.comp, h1, h1.1]
  · by_cases h2 : m.kind = ModKind.BEVEL ∧ m.show_viewport
    · simp [Function.comp, h1, h2]
    · simp [Function.comp, h1, h2]

/-! ## C6: the triangulation modifier -/

/-- Claim C6 (corrected): the counterexample.  A MESH object whose only
modifier is a pre-existing TRIANGULATE-type modifier (one preparation
did not add: preparation runs with triangulation off and appends
nothing) is prepared and then restored with detriangulation requested;
the restore removes the pre-existing modifier, leaving the sequence
empty, so a restore can remove a modifier that preparation did not
add. -/
theorem C6_detriangulate_counterexample :
    ((restObj true ((prepObj Transform.identity false
        { otype := ObjType.MESH
          matrix_world := Transform.identity
          modifiers := [{ kind := ModKind.TRIANGULATE
                          show_viewport := true
                          use_axis := ⟨false, false, false⟩
                          use_bisect_axis := ⟨false, false, false⟩
                          use_bisect_flip_axis := ⟨false, false, false⟩
                          width := 0
                          keep_custom_normals := false
                          show_expanded := true }]
          empty_display_size := 1
          data := 0
          m3 := ⟨false, Transform.identity, none⟩ } 0).1)).1).modifiers = []
    ∧ [{ kind := ModKind.TRIANGULATE
         show_viewport := true
         use_axis := ⟨false, false, false⟩
         use_bisect_axis := ⟨false, false, false⟩
         use_bisect_flip_axis := ⟨false, false, false⟩
         width := 0
         keep_custom_normals := false
         show_expanded := true }] ≠ ([] : List Modifier) := by
  constructor
  · simp +decide [prepObj, restObj, prepMirrors, prepBevels, restMirrors,
      restBevels, addTriangulate, removeTriangulate, List.getLast?]
  · simp

/-- Claim C6 (amended): per prepare visit the triangulation modifier is
added at most once — exactly one is appended for a MESH object when
triangulation is requested, and none otherwise — and a restore with
detriangulation requested removes the last modifier of the sequence when
its type is the triangulation type, which is exactly the one preparation
appended whenever preparation appended one; but when preparation did not
append one and the object's own last modifier already has the
triangulation type, the restore removes that pre-existing modifier
instead (see the counterexample), so removal is identified purely by
position and type, not by provenance. -/
theorem C6_triangulate_amended (mods : List Modifier) :
    addTriangulate true ObjType.MESH mods = mods ++ [triangulateMod]
    ∧ addTriangulate true ObjType.EMPTY mods = mods
    ∧ addTriangulate true ObjType.OTHER mods = mods
    ∧ (∀ ot : ObjType, addTriangulate false ot mods = mods)
    ∧ removeTriangulate true (mods ++ [triangulateMod]) = mods
    ∧ removeTriangulate false mods = mods := by
  refine ⟨by simp [addTriangulate], by simp [addTriangulate],
    by simp [addTriangulate], fun ot => by simp [addTriangulate], ?_,
    by simp [removeTriangulate]⟩
  simp [removeTriangulate, List.getLast?_concat, triangulateMod,
    List.dropLast_concat]

/-! ## C10 and C8: dropping to the floor -/

/-- Claim C10 (confirmed): FLOOR-mode alignment on a MESH object is
defined exactly when the object has at least one vertex: the minimum
over the world-space vertex Z values fails on an empty vertex set (the
error branch is reached, Python's `min` raises), and succeeds on every
non-empty vertex set. -/
theorem C10_floor_requires_vertex (o : FloorObj)
    (h : o.otype = ObjType.MESH) :
    (drop_to_floor_obj o).isSome ↔ o.verts ≠ [] := by
  obtain ⟨ot, mx, verts, loc⟩ := o
  subst h
  cases verts with
  | nil => simp [drop_to_floor_obj, listMin]
  | cons v vs => simp [drop_to_floor_obj, listMin]

/-- Witness for C10 at a concrete MESH object with no vertices. -/
theorem C10_floor_requires_vertex_witness :
    (drop_to_floor_obj { otype := ObjType.MESH
                         matrix_world := Mat4.identity
                         verts := []
                         location := ⟨0, 0, 0⟩ }).isSome
      ↔ ({ otype := ObjType.MESH
           matrix_world := Mat4.identity
           verts := []
           location := ⟨0, 0, 0⟩ } : FloorObj).verts ≠ [] :=
  C10_floor_requires_vertex _ rfl

theorem foldl_min_sub (xs : List ℚ) (x c : ℚ) :
    ((xs.map fun a => a - c).foldl min (x - c)) = xs.foldl min x - c := by
  induction xs generalizing x with
  | nil => simp
  | cons y ys ih =>
    simp only [List.map_cons, List.foldl_cons]
    rw [min_sub_sub_right]
    exact ih (min x y)

theorem listMin_shift (l : List ℚ) (c : ℚ) :
    listMin (l.map fun x => x - c) = (listMin l).map fun x => x - c := by
  cases l with
  | nil => rfl
  | cons x xs => simp [listMin, foldl_min_sub]

theorem mulPoint_subTransZ_z (mx : Mat4) (d : ℚ) (v : Vec3) :
    (Mat4.mulPoint (subTransZ mx d) v).z = (Mat4.mulPoint mx v).z - d := by
  simp only [Mat4.mulPoint, subTransZ]
  ring

/-- Claim C8 (confirmed): FLOOR-mode alignment on a MESH object shifts
the world translation Z by the negated minimum world-space vertex Z, so
afterwards the minimum world-space vertex Z is exactly zero; every other
entry of the world matrix, the vertex set, the type and the local
location are unchanged, and the translation Z is decreased by exactly
the pre-alignment minimum.  An EMPTY-type object is instead shifted down
by its own local Z offset, again changing nothing else. -/
theorem C8_drop_to_floor (o : FloorObj) :
    (o.otype = ObjType.MESH → ∀ o₁, drop_to_floor_obj o = some o₁ →
      listMin (o₁.verts.map fun v => (Mat4.mulPoint o₁.matrix_world v).z)
          = some 0
        ∧ o₁.otype = o.otype ∧ o₁.verts = o.verts ∧ o₁.location = o.location
        ∧ o₁.matrix_world.r0 = o.matrix_world.r0
        ∧ o₁.matrix_world.r1 = o.matrix_world.r1
        ∧ o₁.matrix_world.r3 = o.matrix_world.r3
        ∧ o₁.matrix_world.r2.x = o.matrix_world.r2.x
        ∧ o₁.matrix_world.r2.y = o.matrix_world.r2.y
        ∧ o₁.matrix_world.r2.z = o.matrix_world.r2.z
        ∧ (∀ m, listMin (o.verts.map fun v =>
              (Mat4.mulPoint o.matrix_world v).z) = some m →
            o₁.matrix_world.r2.w = o.matrix_world.r2.w - m))
    ∧ (o.otype = ObjType.EMPTY →
        drop_to_floor_obj o
          = some { o with matrix_world := subTransZ o.matrix_world o.location.z }) := by
  obtain ⟨ot, mx, verts, loc⟩ := o
  constructor
  · intro hM o₁ h
    obtain rfl : ot = ObjType.MESH := hM
    unfold drop_to_floor_obj at h
    rcases hmin : listMin (verts.map fun v =>
        (Mat4.mulPoint mx v).z) with _ | minz
    · rw [show listMin (List.map (fun v => (Mat4.mulPoint mx v).z) verts)
          = none from hmin] at h
      exact absurd h (by simp)
    · rw [show listMin (List.map (fun v => (Mat4.mulPoint mx v).z) verts)
          = some minz from hmin] at h
      rw [Option.some_inj] at h
      subst h
      refine ⟨?_, rfl, rfl, rfl, rfl, rfl, rfl, rfl, rfl, rfl, ?_⟩
      · have hmap : verts.map (fun v =>
            (Mat4.mulPoint (subTransZ mx minz) v).z)
            = (verts.map fun v => (Mat4.mulPoint mx v).z).map
                fun x => x - minz := by
          rw [List.map_map]
          exact List.map_congr_left fun v _ => mulPoint_subTransZ_z _ _ _
        show listMin (verts.map fun v =>
            (Mat4.mulPoint (subTransZ mx minz) v).z) = some 0
        rw [hmap, listMin_shift, hmin]
        simp
      · intro m hm
        rw [Option.some_inj] at hm
        subst hm
        simp [subTransZ]
  · intro hE
    obtain rfl : ot = ObjType.EMPTY := hE
    rfl

/-- Witness for C8: the spec's own example, a mesh with vertices at
local Z in -2, 0, 3 under the identity world transform; after the drop
the minimum world-space vertex Z is zero (the translation Z became 2). -/
theorem C8_drop_to_floor_witness :
    drop_to_floor_obj { otype := ObjType.MESH
                        matrix_world := Mat4.identity
                        verts := [⟨0, 0, -2⟩, ⟨5, 1, 0⟩, ⟨0, 0, 3⟩]
                        location := ⟨0, 0, 0⟩ }
      = some { otype := ObjType.MESH
               matrix_world := subTransZ Mat4.identity (-2)
               verts := [⟨0, 0, -2⟩, ⟨5, 1, 0⟩, ⟨0, 0, 3⟩]
               location := ⟨0, 0, 0⟩ }
    ∧ listMin (([⟨0, 0, -2⟩, ⟨5, 1, 0⟩, ⟨0, 0, 3⟩] : List Vec3).map fun v =>
        (Mat4.mulPoint (subTransZ Mat4.identity (-2)) v).z) = some 0 := by
  have h : drop_to_floor_obj { otype := ObjType.MESH
                               matrix_world := Mat4.identity
                               verts := [⟨0, 0, -2⟩, ⟨5, 1, 0⟩, ⟨0, 0, 3⟩]
                               location := ⟨0, 0, 0⟩ }
      = some { otype := ObjType.MESH
               matrix_world := subTransZ Mat4.identity (-2)
               verts := [⟨0, 0, -2⟩, ⟨5, 1, 0⟩, ⟨0, 0, 3⟩]
               location := ⟨0, 0, 0⟩ } := by
    norm_num [drop_to_floor_obj, listMin, Mat4.mulPoint, Mat4.identity,
      subTransZ, min_def]
  exact ⟨h, ((C8_drop_to_floor _).1 rfl _ h).1⟩

/-! ## C3: mutually exclusive modifier keys in the cursor operators -/

/-- Claim C3 (corrected): the counterexample.  Invoking
`CursorToSelected` with both ALT and CTRL held, on a scene whose cursor
overlay is hidden, reports the error and returns CANCELLED — but the
scene state has already been mutated before the check: the cursor
overlay flag was switched on, so the resulting state differs from the
initial one. -/
theorem C3_mutation_before_check_counterexample :
    cursorToSelected_invoke (fun s => (s, OpStatus.FINISHED))
        { show_cursor := false
          cursor_loc := ⟨0, 0, 0⟩
          cursor_rot := Mat3.identity
          active := some 0
          selected := [0]
          pivot := 0
          orientation := 0
          saved_preset := none
          axes_handler := false } true true
      = some ({ show_cursor := true
                cursor_loc := ⟨0, 0, 0⟩
                cursor_rot := Mat3.identity
                active := some 0
                selected := [0]
                pivot := 0
                orientation := 0
                saved_preset := none
                axes_handler := false }, OpStatus.CANCELLED, true)
    ∧ ({ show_cursor := true
         cursor_loc := ⟨0, 0, 0⟩
         cursor_rot := Mat3.identity
         active := some 0
         selected := [0]
         pivot := 0
         orientation := 0
         saved_preset := none
         axes_handler := false } : CursorScene)
      ≠ { show_cursor := false
          cursor_loc := ⟨0, 0, 0⟩
          cursor_rot := Mat3.identity
          active := some 0
          selected := [0]
          pivot := 0
          orientation := 0
          saved_preset := none
          axes_handler := false } := by
  constructor
  · simp +decide [cursorToSelected_invoke, selOthers]
  · simp

/-- Claim C3 (amended): when both mutually exclusive modifier keys (ALT
and CTRL) are set, both cursor operators report the error to the user
and return CANCELLED, and neither performs any of its substantive
actions — but the "no mutation of any kind before the check" part holds
only for `CursorToOrigin`, whose check is the first statement.
`CursorToSelected` enables the cursor overlay before the check (and its
active-object fix-up can even fail before the check, excluded here by
the hypothesis), so on this error the overlay flag may already have been
switched on; nothing else is mutated. -/
theorem C3_modifier_keys_amended (prefs : CursorPrefs) (s : CursorScene)
    (k : CursorScene → CursorScene × OpStatus)
    (h : ¬(selOthers s ≠ [] ∧ s.active = none)) :
    cursorToOrigin_invoke prefs s true true = (s, OpStatus.CANCELLED, true)
    ∧ cursorToSelected_invoke k s true true
      = some (if s.show_cursor then s else { s with show_cursor := true },
          OpStatus.CANCELLED, true) := by
  constructor
  · simp [cursorToOrigin_invoke]
  · by_cases hsc : s.show_cursor
    · simp [cursorToSelected_invoke, hsc, h]
    · have h' : ¬(selOthers { s with show_cursor := true } ≠ []
          ∧ ({ s with show_cursor := true } : CursorScene).active = none) := h
      simp [cursorToSelected_invoke, hsc, h']

/-- Witness for C3 (amended) at a concrete scene with an active object
and the overlay hidden. -/
theorem C3_modifier_keys_amended_witness :
    cursorToOrigin_invoke ⟨true, true, true, true⟩
        { show_cursor := false
          cursor_loc := ⟨0, 0, 0⟩
          cursor_rot := Mat3.identity
          active := some 0
          selected := [0]
          pivot := 0
          orientation := 0
          saved_preset := none
          axes_handler := false } true true
      = ({ show_cursor := false
           cursor_loc := ⟨0, 0, 0⟩
           cursor_rot := Mat3.identity
           active := some 0
           selected := [0]
           pivot := 0
           orientation := 0
           saved_preset := none
           axes_handler := false }, OpStatus.CANCELLED, true)
    ∧ cursorToSelected_invoke (fun s => (s, OpStatus.FINISHED))
        { show_cursor := false
          cursor_loc := ⟨0, 0, 0⟩
          cursor_rot := Mat3.identity
          active := some 0
          selected := [0]
          pivot := 0
          orientation := 0
          saved_preset := none
          axes_handler := false } true true
      = some ((if ({ show_cursor := false
                     cursor_loc := ⟨0, 0, 0⟩
                     cursor_rot := Mat3.identity
                     active := some 0
                     selected := [0]
                     pivot := 0
                     orientation := 0
                     saved_preset := none
                     axes_handler := false } : CursorScene).show_cursor
            then { show_cursor := false
                   cursor_loc := ⟨0, 0, 0⟩
                   cursor_rot := Mat3.identity
                   active := some 0
                   selected := [0]
                   pivot := 0
                   orientation := 0
                   saved_preset := none
                   axes_handler := false }
            else { ({ show_cursor := false
                      cursor_loc := ⟨0, 0, 0⟩
                      cursor_rot := Mat3.identity
                      active := some 0
                      selected := [0]
                      pivot := 0
                      orientation := 0
                      saved_preset := none
                      axes_handler := false } : CursorScene) with
                   show_cursor := true }),
          OpStatus.CANCELLED, true) :=
  C3_modifier_keys_amended ⟨true, true, true, true⟩ _ _
    (by simp +decide [selOthers])

/-! ## C4: traversal scope during export preparation -/

/-- Claim C4 (corrected): the counterexample.  A scene with an
out-of-scope root object (handle 0) whose child (handle 1) is in scope:
the claim says the traversal descends through the out-of-scope root so
the in-scope child is still visited and prepared, but after
`PrepareExport.invoke` the child's "prepared" flag is still false — the
walk never reaches it, because roots are drawn from the scope set and
recursion only descends into in-scope children. -/
theorem C4_out_of_scope_counterexample :
    exportedFun (prepareInvoke (fun i => i == 1) false
      (OForest.cons (OTree.node 0
        { otype := ObjType.OTHER
          matrix_world := Transform.identity
          modifiers := []
          empty_display_size := 1
          data := 0
          m3 := ⟨false, Transform.identity, none⟩ }
        (OForest.cons (OTree.node 1
          { otype := ObjType.MESH
            matrix_world := Transform.identity
            modifiers := []
            empty_display_size := 1
            data := 1
            m3 := ⟨false, Transform.identity, none⟩ } OForest.nil)
          OForest.nil)) OForest.nil) 0) 1 = false
    ∧ (fun i : Nat => i == 1) 1 = true := by
  constructor
  · simp +decide [prepareInvoke, prepForest, prepTree, rootId,
      exportedFun, findF, findT, mxFun]
  · rfl

/-- Claim C4 (amended): during export preparation only objects in the
scope set are mutated, and the recursive traversal does not descend
through out-of-scope objects: a subtree rooted at an out-of-scope object
is returned entirely unchanged (so in-scope descendants below it are
never visited or prepared), both when the subtree is reached through the
recursion and when it heads a sibling list. -/
theorem C4_scope_amended (sel : Nat → Bool) (mxs : Nat → Transform)
    (tri : Bool) (id : Nat) (o : UObj) (ch f : OForest) (fresh : Nat)
    (h : sel id = false) :
    prepTree sel mxs tri (OTree.node id o ch) fresh
      = (OTree.node id o ch, fresh)
    ∧ prepForest sel mxs tri (OForest.cons (OTree.node id o ch) f) fresh
      = (OForest.cons (OTree.node id o ch)
          (prepForest sel mxs tri f fresh).1,
         (prepForest sel mxs tri f fresh).2) := by
  constructor
  · simp [prepTree, h]
  · simp [prepForest, rootId, h]

/-- Witness for C4 (amended) at a concrete out-of-scope node. -/
theorem C4_scope_amended_witness :
    prepTree (fun _ => false) (fun _ => Transform.identity) false
      (OTree.node 0
        { otype := ObjType.MESH
          matrix_world := Transform.identity
          modifiers := []
          empty_display_size := 1
          data := 0
          m3 := ⟨false, Transform.identity, none⟩ } OForest.nil) 0
      = (OTree.node 0
          { otype := ObjType.MESH
            matrix_world := Transform.identity
            modifiers := []
            empty_display_size := 1
            data := 0
            m3 := ⟨false, Transform.identity, none⟩ } OForest.nil, 0)
    ∧ prepForest (fun _ => false) (fun _ => Transform.identity) false
        (OForest.cons (OTree.node 0
          { otype := ObjType.MESH
            matrix_world := Transform.identity
            modifiers := []
            empty_display_size := 1
            data := 0
            m3 := ⟨false, Transform.identity, none⟩ } OForest.nil)
          OForest.nil) 0
      = (OForest.cons (OTree.node 0
          { otype := ObjType.MESH
            matrix_world := Transform.identity
            modifiers := []
            empty_display_size := 1
            data := 0
            m3 := ⟨false, Transform.identity, none⟩ } OForest.nil)
          (prepForest (fun _ => false) (fun _ => Transform.identity) false
            OForest.nil 0).1,
         (prepForest (fun _ => false) (fun _ => Transform.identity) false
            OForest.nil 0).2) :=
  C4_scope_amended (fun _ => false) (fun _ => Transform.identity) false
    0 _ OForest.nil OForest.nil 0 rfl

/-! ## Round-trip lemmas for the export normalizer -/

theorem swapYZ_swapYZ (a : Axis3) : a.swapYZ.swapYZ = a := rfl

theorem mods_roundtrip (mods : List Modifier) :
    restBevels (restMirrors (prepBevels (prepMirrors mods))) = mods := by
  simp only [prepMirrors, prepBevels, restMirrors, restBevels,
    List.map_map]
  conv_rhs => rw [← List.map_id mods]
  apply List.map_congr_left
  intro m _
  rcases m with ⟨k, vp, ⟨ax, ay, az⟩, ⟨bx, b2, b3⟩, ⟨cx, c2, c3⟩, w, kc, se⟩
  cases vp
  · cases k <;> simp +decide [Function.comp, Axis3.swapYZ]
  · cases k
    · simp +decide [Function.comp, Axis3.swapYZ]
    · simp +decide [Function.comp, Axis3.swapYZ]
    · simp +decide [Function.comp, Axis3.swapYZ]
    · simp +decide [Function.comp, Axis3.swapYZ]

theorem rest_passes_concat_tri (l : List Modifier) :
    restBevels (restMirrors (l ++ [triangulateMod]))
      = restBevels (restMirrors l) ++ [triangulateMod] := by
  simp +decide [restMirrors, restBevels, List.map_append, triangulateMod]

theorem removeTriangulate_concat (l : List Modifier) :
    removeTriangulate true (l ++ [triangulateMod]) = l := by
  simp [removeTriangulate, List.getLast?_concat, triangulateMod,
    List.dropLast_concat]

theorem removeTriangulate_of_no_tri (d : Bool) (mods : List Modifier)
    (h : ∀ m ∈ mods, m.kind ≠ ModKind.TRIANGULATE) :
    removeTriangulate d mods = mods := by
  unfold removeTriangulate
  cases d
  · simp
  · simp only [if_true]
    rcases hl : mods.getLast? with _ | m
    · rfl
    · have hm : m ∈ mods := by
        obtain ⟨hne, heq⟩ := List.mem_getLast?_eq_getLast hl
        exact heq ▸ List.getLast_mem hne
      simp [h m hm]

theorem modsChain (tri : Bool) (ot : ObjType) (mods : List Modifier)
    (htri : ot ≠ ObjType.MESH → ∀ m ∈ mods, m.kind ≠ ModKind.TRIANGULATE) :
    removeTriangulate tri (restBevels (restMirrors
      (addTriangulate tri ot (prepBevels (prepMirrors mods))))) = mods := by
  cases tri
  · rw [show addTriangulate false ot (prepBevels (prepMirrors mods))
        = prepBevels (prepMirrors mods) by simp [addTriangulate]]
    rw [mods_roundtrip]
    simp [removeTriangulate]
  · by_cases hM : ot = ObjType.MESH
    · subst hM
      rw [show addTriangulate true ObjType.MESH (prepBevels (prepMirrors mods))
          = prepBevels (prepMirrors mods) ++ [triangulateMod] by
        simp [addTriangulate]]
      rw [rest_passes_concat_tri, mods_roundtrip, removeTriangulate_concat]
    · rw [show addTriangulate true ot (prepBevels (prepMirrors mods))
          = prepBevels (prepMirrors mods) by simp [addTriangulate, hM]]
      rw [mods_roundtrip]
      exact removeTriangulate_of_no_tri true mods (htri hM)

theorem restObj_prepObj_core (tri : Bool) (o : UObj) (fresh : Nat)
    (htri : o.otype ≠ ObjType.MESH →
      ∀ m ∈ o.modifiers, m.kind ≠ ModKind.TRIANGULATE) :
    ((restObj tri ((prepObj o.matrix_world tri o fresh).1)).1).core
      = o.core := by
  rcases o with ⟨ot, mw, mods, eds, dat, ⟨fl, pmx, pmesh⟩⟩
  have hmods := modsChain tri ot mods htri
  cases ot
  · simp only [prepObj, restObj, UObj.core]
    simp [hmods]
  · simp only [prepObj, restObj, UObj.core]
    simp [hmods]
  · simp only [prepObj, restObj, UObj.core]
    simp [hmods]

theorem prepObj_state (mx : Transform) (tri : Bool) (o : UObj)
    (fresh : Nat) :
    ((prepObj mx tri o fresh).1).m3.unity_exported = true
    ∧ ((prepObj mx tri o fresh).1).m3.pre_unity_export_mx = mx := by
  rcases o with ⟨ot, mw, mods, eds, dat, ⟨fl, pmx, pmesh⟩⟩
  cases ot <;> simp [prepObj]

theorem restObj_clears (d : Bool) (o : UObj) :
    ((restObj d o).1).m3.unity_exported = false
    ∧ ((restObj d o).1).m3.pre_unity_export_mx = Transform.identity := by
  rcases o with ⟨ot, mw, mods, eds, dat, ⟨fl, pmx, pmesh⟩⟩
  cases ot
  · cases pmesh <;> simp [restObj]
  · simp [restObj]
  · simp [restObj]

/-! ## Handle lookup on forests with distinct handles -/

mutual
theorem findT_eq_none : ∀ (t : OTree) (i : Nat),
    i ∉ (nodesT t).map Prod.fst → findT t i = none
  | .node id o ch, i, h => by
    simp only [nodesT, List.map_cons, List.mem_cons, not_or] at h
    simp only [findT]
    rw [if_neg fun hh => h.1 hh.symm]
    exact findF_eq_none ch i h.2

theorem findF_eq_none : ∀ (f : OForest) (i : Nat),
    i ∉ (nodesF f).map Prod.fst → findF f i = none
  | .nil, _, _ => rfl
  | .cons t f, i, h => by
    simp only [nodesF, List.map_append, List.mem_append, not_or] at h
    simp only [findF]
    rw [findT_eq_none t i h.1, findF_eq_none f i h.2]
    rfl
end

mutual
theorem findT_nodes : ∀ (t : OTree),
    ((nodesT t).map Prod.fst).Nodup →
    ∀ p ∈ nodesT t, findT t p.1 = some p.2
  | .node id o ch, hnd, p, hp => by
    simp only [nodesT, List.map_cons, List.nodup_cons] at hnd
    simp only [nodesT, List.mem_cons] at hp
    rcases hp with rfl | hp
    · simp [findT]
    · have hne : ¬ id = p.1 := by
        intro hh
        exact hnd.1 (hh ▸ List.mem_map_of_mem Prod.fst hp)
      simp only [findT]
      rw [if_neg hne]
      exact findF_nodes ch hnd.2 p hp

theorem findF_nodes : ∀ (f : OForest),
    ((nodesF f).map Prod.fst).Nodup →
    ∀ p ∈ nodesF f, findF f p.1 = some p.2
  | .nil, _, p, hp => absurd hp (by simp [nodesF])
  | .cons t f, hnd, p, hp => by
    simp only [nodesF, List.map_append] at hnd
    rw [List.nodup_append] at hnd
    simp only [nodesF, List.mem_append] at hp
    simp only [findF]
    rcases hp with hp | hp
    · rw [findT_nodes t hnd.1 p hp]
      rfl
    · rw [findT_eq_none t p.1 fun hmem =>
        hnd.2.2 hmem (List.mem_map_of_mem Prod.fst hp)]
      exact findF_nodes f hnd.2.1 p hp
end

/-! ## The walks preserve tree shape and handles -/

mutual
theorem prepT_ids : ∀ (sel : Nat → Bool) (mxs : Nat → Transform)
    (tri : Bool) (t : OTree) (fresh : Nat),
    (nodesT (prepTree sel mxs tri t fresh).1).map Prod.fst
      = (nodesT t).map Prod.fst
  | sel, mxs, tri, .node id o ch, fresh => by
    by_cases h : sel id
    · simp only [prepTree, h, if_true, nodesT, List.map_cons]
      rw [prepF_ids sel mxs tri ch (prepObj (mxs id) tri o fresh).2]
    · simp [prepTree, h]

theorem prepF_ids : ∀ (sel : Nat → Bool) (mxs : Nat → Transform)
    (tri : Bool) (f : OForest) (fresh : Nat),
    (nodesF (prepForest sel mxs tri f fresh).1).map Prod.fst
      = (nodesF f).map Prod.fst
  | _, _, _, .nil, _ => rfl
  | sel, mxs, tri, .cons t f, fresh => by
    by_cases h : sel (rootId t)
    · simp only [prepForest, h, if_true, nodesF, List.map_append]
      rw [prepT_ids sel mxs tri t fresh,
        prepF_ids sel mxs tri f (prepTree sel mxs tri t fresh).2]
    · simp only [prepForest, h, Bool.false_eq_true, if_false, nodesF,
        List.map_append]
      rw [prepF_ids sel mxs tri f fresh]
end

theorem prepTree_not_sel (sel : Nat → Bool) (mxs : Nat → Transform)
    (tri : Bool) (id : Nat) (o : UObj) (ch : OForest) (fresh : Nat)
    (h : sel id = false) :
    prepTree sel mxs tri (.node id o ch) fresh = (.node id o ch, fresh) := by
  simp [prepTree, h]

theorem prepForest_cons_norm (sel : Nat → Bool) (mxs : Nat → Transform)
    (tri : Bool) (t : OTree) (f : OForest) (fresh : Nat) :
    prepForest sel mxs tri (.cons t f) fresh
      = (.cons (prepTree sel mxs tri t fresh).1
          (prepForest sel mxs tri f (prepTree sel mxs tri t fresh).2).1,
         (prepForest sel mxs tri f (prepTree sel mxs tri t fresh).2).2) := by
  rcases t with ⟨id, o, ch⟩
  cases h : sel id
  · rw [prepTree_not_sel sel mxs tri id o ch fresh h]
    simp [prepForest, rootId, h]
  · simp [prepForest, rootId, h]

theorem restTree_not_exp (ex : Nat → Bool) (d : Bool) (id : Nat)
    (o : UObj) (ch : OForest) (h : ex id = false) :
    restTree ex d (.node id o ch) = (.node id o ch, []) := by
  simp [restTree, h]

theorem restForest_cons_norm (ex : Nat → Bool) (d : Bool) (t : OTree)
    (f : OForest) :
    restForest ex d (.cons t f)
      = (.cons (restTree ex d t).1 (restForest ex d f).1,
         (restTree ex d t).2 ++ (restForest ex d f).2) := by
  rcases t with ⟨id, o, ch⟩
  cases h : ex id
  · rw [restTree_not_exp ex d id o ch h]
    simp [restForest, rootId, h]
  · simp [restForest, rootId, h]

/-! ## The main round-trip induction -/

mutual
theorem roundtripT : ∀ (sel : Nat → Bool) (mxs : Nat → Transform)
    (ex : Nat → Bool) (tri : Bool) (t : OTree) (fresh : Nat),
    (∀ p ∈ nodesT t, mxs p.1 = p.2.matrix_world) →
    (∀ p ∈ nodesT t, p.2.m3.unity_exported = false) →
    (∀ p ∈ nodesT t, p.2.otype ≠ ObjType.MESH →
      ∀ m ∈ p.2.modifiers, m.kind ≠ ModKind.TRIANGULATE) →
    (∀ p ∈ nodesT (prepTree sel mxs tri t fresh).1,
      ex p.1 = p.2.m3.unity_exported) →
    coreNodesT (restTree ex tri (prepTree sel mxs tri t fresh).1).1
        = coreNodesT t
    ∧ (∀ p ∈ nodesT (restTree ex tri (prepTree sel mxs tri t fresh).1).1,
        p.2.m3.unity_exported = false)
    ∧ (∀ p ∈ nodesT (prepTree sel mxs tri t fresh).1,
        p.2.m3.unity_exported = true →
        p.2.m3.pre_unity_export_mx = mxs p.1)
  | sel, mxs, ex, tri, .node id o ch, fresh, hmx, hflag, htri, hexp => by
    have hheadmem : ((id, o) : Nat × UObj) ∈ nodesT (.node id o ch) := by
      simp [nodesT]
    cases hsel : sel id
    · rw [prepTree_not_sel sel mxs tri id o ch fresh hsel] at hexp ⊢
      have hex0 : ex id = false := by
        have h1 := hexp (id, o) hheadmem
        rw [h1]
        exact hflag (id, o) hheadmem
      rw [restTree_not_exp ex tri id o ch hex0]
      refine ⟨rfl, ?_, ?_⟩
      · exact hflag
      · intro p hp hfl
        exact absurd hfl (by simp [hflag p hp])
    · have hmxid : mxs id = o.matrix_world := hmx (id, o) hheadmem
      have hPT : prepTree sel mxs tri (.node id o ch) fresh
          = (.node id ((prepObj o.matrix_world tri o fresh).1)
              (prepForest sel mxs tri ch
                (prepObj o.matrix_world tri o fresh).2).1,
             (prepForest sel mxs tri ch
               (prepObj o.matrix_world tri o fresh).2).2) := by
        simp [prepTree, hsel, hmxid]
      rw [hPT] at hexp ⊢
      have hexId : ex id = true := by
        have h1 := hexp (id, (prepObj o.matrix_world tri o fresh).1)
          (by simp [nodesT])
        rw [h1]
        exact (prepObj_state o.matrix_world tri o fresh).1
      have hRT : restTree ex tri
          (.node id ((prepObj o.matrix_world tri o fresh).1)
            (prepForest sel mxs tri ch
              (prepObj o.matrix_world tri o fresh).2).1)
          = (.node id ((restObj tri ((prepObj o.matrix_world tri o fresh).1)).1)
              ((restForest ex tri (prepForest sel mxs tri ch
                (prepObj o.matrix_world tri o fresh).2).1).1),
             (restObj tri ((prepObj o.matrix_world tri o fresh).1)).2
               ++ (restForest ex tri (prepForest sel mxs tri ch
                 (prepObj o.matrix_world tri o fresh).2).1).2) := by
        simp [restTree, hexId]
      rw [hRT]
      have IH := roundtripF sel mxs ex tri ch
        (prepObj o.matrix_world tri o fresh).2
        (fun p hp => hmx p (by simp [nodesT, hp]))
        (fun p hp => hflag p (by simp [nodesT, hp]))
        (fun p hp => htri p (by simp [nodesT, hp]))
        (fun p hp => hexp p (by simp [nodesT, hp]))
      refine ⟨?_, ?_, ?_⟩
      · simp only [coreNodesT]
        rw [IH.1, restObj_prepObj_core tri o fresh
          (htri (id, o) hheadmem)]
      · intro p hp
        simp only [nodesT, List.mem_cons] at hp
        rcases hp with rfl | hp
        · exact (restObj_clears tri _).1
        · exact IH.2.1 p hp
      · intro p hp hfl
        simp only [nodesT, List.mem_cons] at hp
        rcases hp with rfl | hp
        · rw [(prepObj_state o.matrix_world tri o fresh).2]
          exact hmxid.symm
        · exact IH.2.2 p hp hfl

theorem roundtripF : ∀ (sel : Nat → Bool) (mxs : Nat → Transform)
    (ex : Nat → Bool) (tri : Bool) (f : OForest) (fresh : Nat),
    (∀ p ∈ nodesF f, mxs p.1 = p.2.matrix_world) →
    (∀ p ∈ nodesF f, p.2.m3.unity_exported = false) →
    (∀ p ∈ nodesF f, p.2.otype ≠ ObjType.MESH →
      ∀ m ∈ p.2.modifiers, m.kind ≠ ModKind.TRIANGULATE) →
    (∀ p ∈ nodesF (prepForest sel mxs tri f fresh).1,
      ex p.1 = p.2.m3.unity_exported) →
    coreNodesF (restForest ex tri (prepForest sel mxs tri f fresh).1).1
        = coreNodesF f
    ∧ (∀ p ∈ nodesF (restForest ex tri (prepForest sel mxs tri f fresh).1).1,
        p.2.m3.unity_exported = false)
    ∧ (∀ p ∈ nodesF (prepForest sel mxs tri f fresh).1,
        p.2.m3.unity_exported = true →
        p.2.m3.pre_unity_export_mx = mxs p.1)
  | sel, mxs, ex, tri, .nil, fresh, hmx, hflag, htri, hexp => by
    refine ⟨rfl, ?_, ?_⟩
    · intro p hp
      exact absurd hp (by simp [prepForest, restForest, nodesF])
    · intro p hp
      exact absurd hp (by simp [prepForest, nodesF])
  | sel, mxs, ex, tri, .cons t f, fresh, hmx, hflag, htri, hexp => by
    rw [prepForest_cons_norm] at hexp ⊢
    rw [restForest_cons_norm]
    have IHt := roundtripT sel mxs ex tri t fresh
      (fun p hp => hmx p (by simp [nodesF, hp]))
      (fun p hp => hflag p (by simp [nodesF, hp]))
      (fun p hp => htri p (by simp [nodesF, hp]))
      (fun p hp => hexp p (by simp [nodesF, hp]))
    have IHf := roundtripF sel mxs ex tri f (prepTree sel mxs tri t fresh).2
      (fun p hp => hmx p (by simp [nodesF, hp]))
      (fun p hp => hflag p (by simp [nodesF, hp]))
      (fun p hp => htri p (by simp [nodesF, hp]))
      (fun p hp => hexp p (by simp [nodesF, hp]))
    refine ⟨?_, ?_, ?_⟩
    · simp only [coreNodesF]
      rw [IHt.1, IHf.1]
    · intro p hp
      simp only [nodesF, List.mem_append] at hp
      rcases hp with hp | hp
      · exact IHt.2.1 p hp
      · exact IHf.2.1 p hp
    · intro p hp
      simp only [nodesF, List.mem_append] at hp
      rcases hp with hp | hp
      · exact IHt.2.2 p hp
      · exact IHf.2.2 p hp
end

/-! ## C1: restore after prepare is the identity -/

/-- Claim C1 (confirmed): on a scene forest with distinct object
handles, in which no object is already flagged as prepared (the
operator's poll guarantees this) and no non-MESH object carries a
TRIANGULATE-type modifier (the host only allows triangulation modifiers
on meshes), running the restore operator after the prepare operator
reproduces every object's persistent state exactly: the world Transform
(stored verbatim and written back, hence bit-for-bit — exact equality in
the rational model), the full modifier sequence (in particular every
MIRROR modifier's three axis-flag sets and every BEVEL modifier's width,
exactly, since rational arithmetic models the float tolerance), the
EMPTY display size, and a MESH object's geometry block reference, which
is restored to the identical pre-prepare block. -/
theorem C1_restore_prepare_roundtrip (F : OForest) (sel : Nat → Bool)
    (tri : Bool) (fresh : Nat)
    (hnd : ((nodesF F).map Prod.fst).Nodup)
    (hflag : ∀ p ∈ nodesF F, p.2.m3.unity_exported = false)
    (htri : ∀ p ∈ nodesF F, p.2.otype ≠ ObjType.MESH →
      ∀ m ∈ p.2.modifiers, m.kind ≠ ModKind.TRIANGULATE) :
    coreNodesF (restoreInvoke tri (prepareInvoke sel tri F fresh)).1
      = coreNodesF F := by
  unfold restoreInvoke prepareInvoke
  refine (roundtripF sel (mxFun F)
    (exportedFun (prepForest sel (mxFun F) tri F fresh).1) tri F fresh
    ?_ hflag htri ?_).1
  · intro p hp
    unfold mxFun
    rw [findF_nodes F hnd p hp]
    rfl
  · intro p hp
    unfold exportedFun
    rw [findF_nodes (prepForest sel (mxFun F) tri F fresh).1
      (by rw [prepF_ids]; exact hnd) p hp]
    rfl

/-- Witness for C1 on a concrete two-object hierarchy: a MESH root with
a viewport-enabled MIRROR and BEVEL modifier and an EMPTY child, all
selected, with triangulation requested in both invocations. -/
theorem C1_restore_prepare_roundtrip_witness :
    coreNodesF (restoreInvoke true (prepareInvoke (fun _ => true) true
      (OForest.cons (OTree.node 0
        { otype := ObjType.MESH
          matrix_world := Transform.identity
          modifiers := [{ kind := ModKind.MIRROR
                          show_viewport := true
                          use_axis := ⟨true, true, false⟩
                          use_bisect_axis := ⟨false, true, false⟩
                          use_bisect_flip_axis := ⟨false, false, true⟩
                          width := 0
                          keep_custom_normals := false
                          show_expanded := true },
                        { kind := ModKind.BEVEL
                          show_viewport := true
                          use_axis := ⟨false, false, false⟩
                          use_bisect_axis := ⟨false, false, false⟩
                          use_bisect_flip_axis := ⟨false, false, false⟩
                          width := 3
                          keep_custom_normals := false
                          show_expanded := true }]
          empty_display_size := 1
          data := 5
          m3 := ⟨false, Transform.identity, none⟩ }
        (OForest.cons (OTree.node 1
          { otype := ObjType.EMPTY
            matrix_world := Transform.identity
            modifiers := []
            empty_display_size := 2
            data := 6
            m3 := ⟨false, Transform.identity, none⟩ } OForest.nil)
          OForest.nil)) OForest.nil) 100)).1
      = coreNodesF
      (OForest.cons (OTree.node 0
        { otype := ObjType.MESH
          matrix_world := Transform.identity
          modifiers := [{ kind := ModKind.MIRROR
                          show_viewport := true
                          use_axis := ⟨true, true, false⟩
                          use_bisect_axis := ⟨false, true, false⟩
                          use_bisect_flip_axis := ⟨false, false, true⟩
                          width := 0
                          keep_custom_normals := false
                          show_expanded := true },
                        { kind := ModKind.BEVEL
                          show_viewport := true
                          use_axis := ⟨false, false, false⟩
                          use_bisect_axis := ⟨false, false, false⟩
                          use_bisect_flip_axis := ⟨false, false, false⟩
                          width := 3
                          keep_custom_normals := false
                          show_expanded := true }]
          empty_display_size := 1
          data := 5
          m3 := ⟨false, Transform.identity, none⟩ }
        (OForest.cons (OTree.node 1
          { otype := ObjType.EMPTY
            matrix_world := Transform.identity
            modifiers := []
            empty_display_size := 2
            data := 6
            m3 := ⟨false, Transform.identity, none⟩ } OForest.nil)
          OForest.nil)) OForest.nil) :=
  C1_restore_prepare_roundtrip _ (fun _ => true) true 100
    (by decide) (by decide) (by decide)

/-! ## C9: the export-state invariant -/

/-- Claim C9 (confirmed): under the same scene well-formedness
hypotheses as C1, after the prepare step every object whose "prepared
for export" flag is set carries the valid saved pre-export Transform —
exactly the world-matrix snapshot taken at invoke time, which equals the
object's pre-prepare world Transform — and after the restore step no
flag remains set; moreover a single restore visit clears the saved
Transform (resetting it to the identity) and the flag together, in one
atomic object update, so the flag is never left set without its saved
Transform. -/
theorem C9_export_state_invariant (F : OForest) (sel : Nat → Bool)
    (tri : Bool) (fresh : Nat)
    (hnd : ((nodesF F).map Prod.fst).Nodup)
    (hflag : ∀ p ∈ nodesF F, p.2.m3.unity_exported = false)
    (htri : ∀ p ∈ nodesF F, p.2.otype ≠ ObjType.MESH →
      ∀ m ∈ p.2.modifiers, m.kind ≠ ModKind.TRIANGULATE) :
    (∀ p ∈ nodesF (prepareInvoke sel tri F fresh),
      p.2.m3.unity_exported = true →
      p.2.m3.pre_unity_export_mx = mxFun F p.1)
    ∧ (∀ p ∈ nodesF F, mxFun F p.1 = p.2.matrix_world)
    ∧ (∀ p ∈ nodesF (restoreInvoke tri (prepareInvoke sel tri F fresh)).1,
        p.2.m3.unity_exported = false)
    ∧ (∀ (d : Bool) (o : UObj),
        ((restObj d o).1).m3.unity_exported = false
        ∧ ((restObj d o).1).m3.pre_unity_export_mx = Transform.identity) := by
  have hmx : ∀ p ∈ nodesF F, mxFun F p.1 = p.2.matrix_world := by
    intro p hp
    unfold mxFun
    rw [findF_nodes F hnd p hp]
    rfl
  have hexp : ∀ p ∈ nodesF (prepForest sel (mxFun F) tri F fresh).1,
      exportedFun (prepForest sel (mxFun F) tri F fresh).1 p.1
        = p.2.m3.unity_exported := by
    intro p hp
    unfold exportedFun
    rw [findF_nodes (prepForest sel (mxFun F) tri F fresh).1
      (by rw [prepF_ids]; exact hnd) p hp]
    rfl
  have main := roundtripF sel (mxFun F)
    (exportedFun (prepForest sel (mxFun F) tri F fresh).1) tri F fresh
    hmx hflag htri hexp
  exact ⟨main.2.2, hmx, main.2.1, restObj_clears⟩

/-- Witness for C9 on a concrete one-object scene. -/
theorem C9_export_state_invariant_witness :
    (∀ p ∈ nodesF (prepareInvoke (fun _ => true) false
        (OForest.cons (OTree.node 0
          { otype := ObjType.MESH
            matrix_world := Transform.identity
            modifiers := []
            empty_display_size := 1
            data := 5
            m3 := ⟨false, Transform.identity, none⟩ } OForest.nil)
          OForest.nil) 100),
      p.2.m3.unity_exported = true →
      p.2.m3.pre_unity_export_mx = mxFun
        (OForest.cons (OTree.node 0
          { otype := ObjType.MESH
            matrix_world := Transform.identity
            modifiers := []
            empty_display_size := 1
            data := 5
            m3 := ⟨false, Transform.identity, none⟩ } OForest.nil)
          OForest.nil) p.1)
    ∧ (∀ p ∈ nodesF (OForest.cons (OTree.node 0
          { otype := ObjType.MESH
            matrix_world := Transform.identity
            modifiers := []
            empty_display_size := 1
            data := 5
            m3 := ⟨false, Transform.identity, none⟩ } OForest.nil)
          OForest.nil),
        mxFun (OForest.cons (OTree.node 0
          { otype := ObjType.MESH
            matrix_world := Transform.identity
            modifiers := []
            empty_display_size := 1
            data := 5
            m3 := ⟨false, Transform.identity, none⟩ } OForest.nil)
          OForest.nil) p.1 = p.2.matrix_world)
    ∧ (∀ p ∈ nodesF (restoreInvoke false (prepareInvoke (fun _ => true)
        false (OForest.cons (OTree.node 0
          { otype := ObjType.MESH
            matrix_world := Transform.identity
            modifiers := []
            empty_display_size := 1
            data := 5
            m3 := ⟨false, Transform.identity, none⟩ } OForest.nil)
          OForest.nil) 100)).1,
        p.2.m3.unity_exported = false)
    ∧ (∀ (d : Bool) (o : UObj),
        ((restObj d o).1).m3.unity_exported = false
        ∧ ((restObj d o).1).m3.pre_unity_export_mx = Transform.identity) :=
  C9_export_state_invariant _ (fun _ => true) false 100
    (by decide) (by decide) (by decide)
